import Mathlib

/-!
Verification of the Ultimate-Trend-Strategy core against its specification.

Prices, indicator values and multipliers are modelled by rationals; every
Python float literal in the source is carried over as the exact rational it
denotes.  Boolean configuration flags and indicator snapshot flags are `Bool`.
Calls to the external order executor are modelled by oracle booleans: the
embedded function receives the value the executor call would have returned.
-/

namespace UTS

/-! ## Candlestick patterns (src/strategy/patterns.py) -/

/-- Embeds `patterns.bullish_engulfing`. -/
def bullish_engulfing (open_curr close_curr open_prev close_prev : ℚ) : Bool :=
  close_curr > open_curr ∧ close_prev < open_prev ∧
    close_curr > open_prev ∧ open_curr < close_prev

/-- Embeds `patterns.bearish_engulfing`. -/
def bearish_engulfing (open_curr close_curr open_prev close_prev : ℚ) : Bool :=
  close_curr < open_curr ∧ close_prev > open_prev ∧
    close_curr < open_prev ∧ open_curr > close_prev

/-- Embeds `patterns.hammer`: bullish bar with small body and long lower wick.
The source returns `False` when the high-low range is zero, otherwise tests
`close > open and (close - open) < rng * 0.3 and (min(close, open) - low) > rng * 0.6`. -/
def hammer (open_p high low close : ℚ) : Bool :=
  let rng := high - low
  if rng = 0 then false
  else
    close > open_p ∧ close - open_p < rng * (3/10) ∧
      min close open_p - low > rng * (6/10)

/-- Embeds `patterns.shooting_star`: bearish bar with small body and long
upper wick, the mirror of `hammer`. -/
def shooting_star (open_p high low close : ℚ) : Bool :=
  let rng := high - low
  if rng = 0 then false
  else
    close < open_p ∧ open_p - close < rng * (3/10) ∧
      high - max close open_p > rng * (6/10)

/-! ## News blackout filter (src/strategy/news_filter.py) -/

/-- A recurring calendar event, `NewsEvent` in the source (name omitted:
only month/day/hour/minute are read by `is_blackout`). -/
structure NewsEvent where
  month : ℕ
  day : ℕ
  hour : ℕ
  minute : ℕ
deriving DecidableEq

/-- The wall-clock instant handed to `is_blackout` (the fields of the Python
`datetime` that the function reads). -/
structure DateTimeUTC where
  month : ℕ
  day : ℕ
  hour : ℕ
  minute : ℕ
deriving DecidableEq

/-- `NewsFilter` dataclass fields consulted by `is_blackout`.  Buffers are
minutes; the window arithmetic is done in ℤ because
`event_total_minutes - buffer_before` may be negative. -/
structure NewsFilter where
  enabled : Bool
  buffer_before : ℤ
  buffer_after : ℤ
  events : List NewsEvent

/-- One loop iteration of `NewsFilter.is_blackout`: does `now` fall in this
event's blackout window? -/
def event_window_hit (f : NewsFilter) (now : DateTimeUTC) (e : NewsEvent) : Bool :=
  e.month = now.month ∧ e.day = now.day ∧
    (e.hour * 60 + e.minute : ℤ) - f.buffer_before ≤ (now.hour * 60 + now.minute : ℤ) ∧
    (now.hour * 60 + now.minute : ℤ) ≤ (e.hour * 60 + e.minute : ℤ) + f.buffer_after

/-- Embeds `NewsFilter.is_blackout`: false when disabled or without events,
otherwise true iff some event's window contains `now` (the source loop with
early `return True` is the list-`any`). -/
def is_blackout (f : NewsFilter) (now : DateTimeUTC) : Bool :=
  if ¬f.enabled ∨ f.events.isEmpty then false
  else f.events.any (event_window_hit f now)

/-! ## Risk sizing tracker (src/trading/risk_manager.py) -/

/-- The mutable counters of `RiskManager`. -/
structure RiskStats where
  consecutive_wins : ℕ
  consecutive_losses : ℕ
  total_trades : ℕ
  total_wins : ℕ
  total_losses : ℕ
deriving DecidableEq

/-- Embeds `RiskManager.record_win`. -/
def record_win (s : RiskStats) : RiskStats :=
  { s with
    consecutive_wins := s.consecutive_wins + 1
    consecutive_losses := 0
    total_trades := s.total_trades + 1
    total_wins := s.total_wins + 1 }

/-- Embeds `RiskManager.record_loss`. -/
def record_loss (s : RiskStats) : RiskStats :=
  { s with
    consecutive_losses := s.consecutive_losses + 1
    consecutive_wins := 0
    total_trades := s.total_trades + 1
    total_losses := s.total_losses + 1 }

/-- The two sizing-config fields read by `get_sizing_multiplier`. -/
structure SizingConfig where
  use_adaptive_sizing : Bool
  max_consecutive_losses : ℕ

/-- Embeds `RiskManager.get_sizing_multiplier`. -/
def get_sizing_multiplier (cfg : SizingConfig) (s : RiskStats) : ℚ :=
  if ¬cfg.use_adaptive_sizing then 1
  else if s.consecutive_losses ≥ cfg.max_consecutive_losses + 1 then 1/2
  else if s.consecutive_losses ≥ cfg.max_consecutive_losses then 3/4
  else 1

/-! ## Supertrend (src/indicators/supertrend.py) -/

/-- Supertrend state after seeding: the last computed supertrend value and
the direction (`1` bullish, `-1` bearish), as kept by `SupertrendIndicator`. -/
structure SupertrendState where
  st : ℚ
  dir : ℤ
deriving DecidableEq

/-- One post-seed update of `SupertrendIndicator._recalculate`, with the
bar's `hl2 = (high+low)/2` and the ATR value as computed by the source.
Mirrors the band clamp (`max`/`min` against the previous supertrend under the
previous direction), the flip rule on `close` vs previous supertrend, and the
final selection of lower band when bullish / upper band when bearish. -/
def supertrend_step (mult : ℚ) (prev : SupertrendState)
    (high low close atr_val : ℚ) : SupertrendState :=
  let hl2 := (high + low) / 2
  let upper_band0 := hl2 + mult * atr_val
  let lower_band0 := hl2 - mult * atr_val
  let lower_band := if prev.dir = 1 then max lower_band0 prev.st else lower_band0
  let upper_band := if prev.dir = 1 then upper_band0 else min upper_band0 prev.st
  let dir := if close > prev.st then 1 else if close < prev.st then -1 else prev.dir
  { st := if dir = 1 then lower_band else upper_band, dir := dir }

/-! ## Strategy engine (src/strategy/engine.py)

`IndicatorStatus` is the snapshot of boolean flags built by
`_evaluate_indicators`; the setup/trigger/no-trade-zone checks and `evaluate`
are pure functions of it and of the configuration flags.  The cooldown and
readiness gates depend on wall-clock time and indicator history, so they
enter the embedding as the booleans `cooldown_ok` (result of
`_check_cooldown`) and `indicators_ready` (result of `_indicators_ready`). -/

/-- The flag fields of `IndicatorStatus` (src/strategy/signals.py) read by
the setup, trigger, no-trade-zone and reversal-exit checks. -/
structure IndicatorStatus where
  ema_fast_above_slow : Bool
  ema_strong_bull_trend : Bool
  ema_strong_bear_trend : Bool
  ema_above_200 : Bool
  ema_below_200 : Bool
  ema_bullish_crossover : Bool
  ema_bearish_crossover : Bool
  adx_strong : Bool
  supertrend_bullish : Bool
  supertrend_bearish : Bool
  bb_above_basis : Bool
  bb_below_basis : Bool
  bb_wide_enough : Bool
  mtf_bullish : Bool
  mtf_bearish : Bool
  rsi_bull_zone : Bool
  rsi_bear_zone : Bool
  rsi_bullish_divergence : Bool
  rsi_bearish_divergence : Bool
  macd_bullish : Bool
  macd_bearish : Bool
  volume_above_avg : Bool
  volume_spike : Bool
  volatility_ok : Bool
  is_choppy : Bool
  is_sideways : Bool
  near_support : Bool
  near_resistance : Bool
  news_blackout : Bool
  bullish_engulfing : Bool
  bearish_engulfing : Bool
  hammer : Bool
  shooting_star : Bool
  morning_doji_star : Bool
  evening_doji_star : Bool
deriving DecidableEq

/-- The configuration flags consulted by the engine's setup/trigger/no-trade
checks (the enable switches of src/config.py). -/
structure EngineConfig where
  use_ema200_filter : Bool
  supertrend_enabled : Bool
  bollinger_enabled : Bool
  mtf_enabled : Bool
  rsi_enabled : Bool
  macd_enabled : Bool
  volatility_enabled : Bool
  sr_enabled : Bool
  use_choppiness : Bool
  use_sideways : Bool
  detect_spike : Bool
deriving DecidableEq

/-- Embeds `StrategyEngine._check_long_setup`: the source's chain of
`if not cond: return False` guards, one per enabled filter. -/
def check_long_setup (cfg : EngineConfig) (s : IndicatorStatus) : Bool :=
  if ¬s.ema_fast_above_slow then false
  else if ¬s.ema_strong_bull_trend then false
  else if cfg.use_ema200_filter ∧ ¬s.ema_above_200 then false
  else if ¬s.adx_strong then false
  else if cfg.supertrend_enabled ∧ ¬s.supertrend_bullish then false
  else if cfg.bollinger_enabled ∧ ¬(s.bb_above_basis ∧ s.bb_wide_enough) then false
  else if cfg.mtf_enabled ∧ ¬s.mtf_bullish then false
  else if cfg.rsi_enabled ∧ ¬s.rsi_bull_zone then false
  else if cfg.macd_enabled ∧ ¬s.macd_bullish then false
  else if cfg.volatility_enabled ∧ ¬s.volatility_ok then false
  else if cfg.sr_enabled ∧ s.near_resistance then false
  else true

/-- Embeds `StrategyEngine._check_short_setup` exactly as written in the
source, including its leading no-op conditional
`if not s.ema_fast_above_slow == False: pass`, which binds an unused value
and changes nothing. -/
def check_short_setup (cfg : EngineConfig) (s : IndicatorStatus) : Bool :=
  let _noop := ¬(s.ema_fast_above_slow = false)
  if s.ema_fast_above_slow then false
  else if ¬s.ema_strong_bear_trend then false
  else if cfg.use_ema200_filter ∧ ¬s.ema_below_200 then false
  else if ¬s.adx_strong then false
  else if cfg.supertrend_enabled ∧ ¬s.supertrend_bearish then false
  else if cfg.bollinger_enabled ∧ ¬(s.bb_below_basis ∧ s.bb_wide_enough) then false
  else if cfg.mtf_enabled ∧ ¬s.mtf_bearish then false
  else if cfg.rsi_enabled ∧ ¬s.rsi_bear_zone then false
  else if cfg.macd_enabled ∧ ¬s.macd_bearish then false
  else if cfg.volatility_enabled ∧ ¬s.volatility_ok then false
  else if cfg.sr_enabled ∧ s.near_support then false
  else true

/-- Modelled from the spec: `_check_short_setup` with the no-op conditional
deleted — "false whenever `ema_fast_above_slow` is true and otherwise equal
to the conjunction of the remaining enabled bearish conditions". -/
def check_short_setup_spec (cfg : EngineConfig) (s : IndicatorStatus) : Bool :=
  if s.ema_fast_above_slow then false
  else
    s.ema_strong_bear_trend ∧
    (cfg.use_ema200_filter → s.ema_below_200) ∧
    s.adx_strong ∧
    (cfg.supertrend_enabled → s.supertrend_bearish) ∧
    (cfg.bollinger_enabled → s.bb_below_basis ∧ s.bb_wide_enough) ∧
    (cfg.mtf_enabled → s.mtf_bearish) ∧
    (cfg.rsi_enabled → s.rsi_bear_zone) ∧
    (cfg.macd_enabled → s.macd_bearish) ∧
    (cfg.volatility_enabled → s.volatility_ok) ∧
    ¬(cfg.sr_enabled ∧ s.near_support)

/-- Embeds `StrategyEngine._check_long_trigger`: the OR of the six discrete
long trigger events. -/
def check_long_trigger (cfg : EngineConfig) (s : IndicatorStatus) : Bool :=
  s.ema_bullish_crossover ∨ s.bullish_engulfing ∨
    (s.hammer ∧ s.near_support) ∨ s.rsi_bullish_divergence ∨
    s.morning_doji_star ∨ (cfg.detect_spike ∧ s.volume_spike)

/-- Embeds `StrategyEngine._check_short_trigger`: the OR of the six discrete
short trigger events. -/
def check_short_trigger (cfg : EngineConfig) (s : IndicatorStatus) : Bool :=
  s.ema_bearish_crossover ∨ s.bearish_engulfing ∨
    (s.shooting_star ∧ s.near_resistance) ∨ s.rsi_bearish_divergence ∨
    s.evening_doji_star ∨ (cfg.detect_spike ∧ s.volume_spike)

/-- Embeds `StrategyEngine._is_no_trade_zone`. -/
def is_no_trade_zone (cfg : EngineConfig) (s : IndicatorStatus) : Bool :=
  (cfg.use_choppiness ∧ s.is_choppy) ∨ (cfg.use_sideways ∧ s.is_sideways) ∨
    s.news_blackout

/-- The closed signal-type variant (src/strategy/signals.py `SignalType`). -/
inductive SignalType where
  | LONG
  | SHORT
  | NEUTRAL
deriving DecidableEq

/-- Embeds the decision skeleton of `StrategyEngine.evaluate`: cooldown gate,
readiness gate, no-trade-zone override, then `long_trigger = long_setup and
long events` / `short_trigger = short_setup and short events` with the
LONG-before-SHORT branch order of the source. -/
def evaluate (cfg : EngineConfig) (cooldown_ok indicators_ready : Bool)
    (s : IndicatorStatus) : SignalType :=
  if ¬cooldown_ok then SignalType.NEUTRAL
  else if ¬indicators_ready then SignalType.NEUTRAL
  else if is_no_trade_zone cfg s then SignalType.NEUTRAL
  else if check_long_setup cfg s ∧ check_long_trigger cfg s then SignalType.LONG
  else if check_short_setup cfg s ∧ check_short_trigger cfg s then SignalType.SHORT
  else SignalType.NEUTRAL

/-- Embeds the status-level test of `StrategyEngine.should_exit_long`
(the disjunction returned once the symbol's status has been built). -/
def should_exit_long (s : IndicatorStatus) : Bool :=
  s.ema_bearish_crossover ∨ s.bearish_engulfing ∨
    (s.shooting_star ∧ s.near_resistance) ∨ s.supertrend_bearish

/-- Embeds the status-level test of `StrategyEngine.should_exit_short`. -/
def should_exit_short (s : IndicatorStatus) : Bool :=
  s.ema_bullish_crossover ∨ s.bullish_engulfing ∨
    (s.hammer ∧ s.near_support) ∨ s.supertrend_bullish

/-! ## Position risk state machine (src/trading/position_manager.py)

Each `_check_*` method mutates the `ManagedPosition` in place and calls the
external executor; here each becomes a function from the position and the
executor's boolean reply to the new position paired with the list of executor
calls it issued. -/

/-- Position side, the `side` string field restricted to its two values. -/
inductive Side where
  | LONG
  | SHORT
deriving DecidableEq

/-- The `ManagedPosition` dataclass (open time omitted: never read by the
management checks). -/
structure ManagedPosition where
  side : Side
  entry_price : ℚ
  current_price : ℚ
  stoploss : ℚ
  takeprofit : ℚ
  tp1_price : ℚ
  tp2_price : ℚ
  atr_at_entry : ℚ
  breakeven_triggered : Bool
  tp1_triggered : Bool
  tp2_triggered : Bool
  highest_price : ℚ
  lowest_price : ℚ
deriving DecidableEq

/-- A call issued to the external `TradeExecutor` during a management tick:
`close_position`, `close_partial(fraction)` or `set_stoploss(price)`. -/
inductive ExecCall where
  | close_position
  | close_part (fraction : ℚ)
  | set_stoploss (price : ℚ)
deriving DecidableEq

/-- The boolean replies of the executor for the (at most) four calls one
management tick can make, supplied as oracles. -/
structure ExecResults where
  tp1_ok : Bool
  tp2_ok : Bool
  breakeven_ok : Bool
  trailing_ok : Bool
deriving DecidableEq

/-- The position-manager configuration fields read during a tick.
`use_part_profits` embeds `config.profit.use_partial_profits`. -/
structure PMConfig where
  use_part_profits : Bool
  use_breakeven : Bool
  use_trailing_stop : Bool
  breakeven_trigger_atr : ℚ
  trailing_stop_atr : ℚ

/-- Embeds `PositionManager.update_price`: record the latest price and
extend the running extreme in the position's favorable direction. -/
def update_price (pos : ManagedPosition) (price : ℚ) : ManagedPosition :=
  match pos.side with
  | Side.LONG => { pos with current_price := price,
                            highest_price := max pos.highest_price price }
  | Side.SHORT => { pos with current_price := price,
                             lowest_price := min pos.lowest_price price }

/-- Embeds `PositionManager._check_partial_tp1` (close 50% at TP1):
if the price has reached tp1 for the side, call `close_partial(0.5)` and set
`tp1_triggered` only when the call reports success. -/
def check_tp1 (pos : ManagedPosition) (exec_ok : Bool) :
    ManagedPosition × List ExecCall :=
  let hit : Bool := match pos.side with
    | Side.LONG => pos.current_price ≥ pos.tp1_price
    | Side.SHORT => pos.current_price ≤ pos.tp1_price
  if hit then
    (if exec_ok then { pos with tp1_triggered := true } else pos,
     [ExecCall.close_part (1/2)])
  else (pos, [])

/-- Embeds `PositionManager._check_partial_tp2` (close 50% of the remaining
size at TP2): same shape as TP1 against `tp2_price`, setting `tp2_triggered`. -/
def check_tp2 (pos : ManagedPosition) (exec_ok : Bool) :
    ManagedPosition × List ExecCall :=
  let hit : Bool := match pos.side with
    | Side.LONG => pos.current_price ≥ pos.tp2_price
    | Side.SHORT => pos.current_price ≤ pos.tp2_price
  if hit then
    (if exec_ok then { pos with tp2_triggered := true } else pos,
     [ExecCall.close_part (1/2)])
  else (pos, [])

/-- Embeds `PositionManager._check_breakeven`: when price has moved
`atr * trigger` in the position's favor, propose `entry ± atr * 0.1` and,
only when it strictly improves the stop, call `set_stoploss`; commit the new
stop and `breakeven_triggered` only on a successful reply. -/
def check_breakeven (trigger : ℚ) (pos : ManagedPosition) (atr : ℚ)
    (exec_ok : Bool) : ManagedPosition × List ExecCall :=
  let buffer := atr * (1/10)
  match pos.side with
  | Side.LONG =>
    if pos.current_price ≥ pos.entry_price + atr * trigger then
      let new_sl := pos.entry_price + buffer
      if new_sl > pos.stoploss then
        (if exec_ok then
          { pos with stoploss := new_sl, breakeven_triggered := true }
         else pos,
         [ExecCall.set_stoploss new_sl])
      else (pos, [])
    else (pos, [])
  | Side.SHORT =>
    if pos.current_price ≤ pos.entry_price - atr * trigger then
      let new_sl := pos.entry_price - buffer
      if new_sl < pos.stoploss then
        (if exec_ok then
          { pos with stoploss := new_sl, breakeven_triggered := true }
         else pos,
         [ExecCall.set_stoploss new_sl])
      else (pos, [])
    else (pos, [])

/-- Embeds `PositionManager._check_trailing_stop`: candidate stop =
high-water-mark minus `atr * trail` for a long (low-water-mark plus it for a
short); call `set_stoploss` only when strictly more favorable than the
current stop, and commit only on a successful reply. -/
def check_trailing_stop (trail : ℚ) (pos : ManagedPosition) (atr : ℚ)
    (exec_ok : Bool) : ManagedPosition × List ExecCall :=
  let trail_dist := atr * trail
  match pos.side with
  | Side.LONG =>
    let new_sl := pos.highest_price - trail_dist
    if new_sl > pos.stoploss then
      (if exec_ok then { pos with stoploss := new_sl } else pos,
       [ExecCall.set_stoploss new_sl])
    else (pos, [])
  | Side.SHORT =>
    let new_sl := pos.lowest_price + trail_dist
    if new_sl < pos.stoploss then
      (if exec_ok then { pos with stoploss := new_sl } else pos,
       [ExecCall.set_stoploss new_sl])
    else (pos, [])

/-- Step 2 of `_manage_position`: the TP1 check under its guard
`use_partial_profits and not pos.tp1_triggered and pos.tp1_price > 0`. -/
def stage_tp1 (cfg : PMConfig) (ok : Bool) (pos : ManagedPosition) :
    ManagedPosition × List ExecCall :=
  if cfg.use_part_profits ∧ ¬pos.tp1_triggered ∧ pos.tp1_price > 0
  then check_tp1 pos ok else (pos, [])

/-- Step 3 of `_manage_position`: the TP2 check under its guard. -/
def stage_tp2 (cfg : PMConfig) (ok : Bool) (pos : ManagedPosition) :
    ManagedPosition × List ExecCall :=
  if cfg.use_part_profits ∧ ¬pos.tp2_triggered ∧ pos.tp2_price > 0
  then check_tp2 pos ok else (pos, [])

/-- Step 4 of `_manage_position`: the breakeven check under its guard
`use_breakeven and not pos.breakeven_triggered`. -/
def stage_breakeven (cfg : PMConfig) (ok : Bool) (pos : ManagedPosition)
    (atr : ℚ) : ManagedPosition × List ExecCall :=
  if cfg.use_breakeven ∧ ¬pos.breakeven_triggered
  then check_breakeven cfg.breakeven_trigger_atr pos atr ok else (pos, [])

/-- Step 5 of `_manage_position`: the trailing-stop check under its guard
`use_trailing_stop`. -/
def stage_trailing (cfg : PMConfig) (ok : Bool) (pos : ManagedPosition)
    (atr : ℚ) : ManagedPosition × List ExecCall :=
  if cfg.use_trailing_stop
  then check_trailing_stop cfg.trailing_stop_atr pos atr ok else (pos, [])

/-- Embeds `PositionManager._manage_position` for one registered position:
no-op when `atr_at_entry ≤ 0`; reversal exit (close the full position and
unregister, returning `none`) when the engine reports a reversal for the
side; otherwise run the TP1, TP2, breakeven and trailing stages in the
source's order.  `status` is the indicator snapshot the engine's reversal
checks evaluate this tick. -/
def manage_position (cfg : PMConfig) (status : IndicatorStatus)
    (pos : ManagedPosition) (er : ExecResults) :
    Option ManagedPosition × List ExecCall :=
  if pos.atr_at_entry ≤ 0 then (some pos, [])
  else if (match pos.side with
           | Side.LONG => should_exit_long status
           | Side.SHORT => should_exit_short status) then
    (none, [ExecCall.close_position])
  else
    let r1 := stage_tp1 cfg er.tp1_ok pos
    let r2 := stage_tp2 cfg er.tp2_ok r1.1
    let r3 := stage_breakeven cfg er.breakeven_ok r2.1 pos.atr_at_entry
    let r4 := stage_trailing cfg er.trailing_ok r3.1 pos.atr_at_entry
    (some r4.1, r1.2 ++ r2.2 ++ r3.2 ++ r4.2)

/-- One event applied to a managed position between registration and close:
a management tick (with that tick's indicator snapshot and executor replies)
or an out-of-band price update. -/
inductive ManageStep where
  | tick (status : IndicatorStatus) (er : ExecResults)
  | price (p : ℚ)

/-- Run a sequence of management ticks and price updates on a position;
`none` once a reversal exit has closed it. -/
def run_steps (cfg : PMConfig) (steps : List ManageStep)
    (pos : ManagedPosition) : Option ManagedPosition :=
  match steps with
  | [] => some pos
  | ManageStep.price p :: rest => run_steps cfg rest (update_price pos p)
  | ManageStep.tick status er :: rest =>
    match (manage_position cfg status pos er).1 with
    | none => none
    | some pos2 => run_steps cfg rest pos2

/-! ## Helper lemmas: propositional forms of the engine checks -/

set_option maxHeartbeats 2000000 in
/-- `_check_long_setup`'s early-return chain is the strict conjunction of the
enabled long conditions. -/
lemma check_long_setup_eq_true (cfg : EngineConfig) (s : IndicatorStatus) :
    check_long_setup cfg s = true ↔
      s.ema_fast_above_slow = true ∧ s.ema_strong_bull_trend = true ∧
      (cfg.use_ema200_filter = true → s.ema_above_200 = true) ∧
      s.adx_strong = true ∧
      (cfg.supertrend_enabled = true → s.supertrend_bullish = true) ∧
      (cfg.bollinger_enabled = true →
        s.bb_above_basis = true ∧ s.bb_wide_enough = true) ∧
      (cfg.mtf_enabled = true → s.mtf_bullish = true) ∧
      (cfg.rsi_enabled = true → s.rsi_bull_zone = true) ∧
      (cfg.macd_enabled = true → s.macd_bullish = true) ∧
      (cfg.volatility_enabled = true → s.volatility_ok = true) ∧
      ¬(cfg.sr_enabled = true ∧ s.near_resistance = true) := by
  unfold check_long_setup
  split_ifs <;> simp_all

set_option maxHeartbeats 2000000 in
/-- `_check_short_setup`'s early-return chain is the strict conjunction of the
enabled short conditions (the leading no-op conditional contributes nothing). -/
lemma check_short_setup_eq_true (cfg : EngineConfig) (s : IndicatorStatus) :
    check_short_setup cfg s = true ↔
      s.ema_fast_above_slow = false ∧ s.ema_strong_bear_trend = true ∧
      (cfg.use_ema200_filter = true → s.ema_below_200 = true) ∧
      s.adx_strong = true ∧
      (cfg.supertrend_enabled = true → s.supertrend_bearish = true) ∧
      (cfg.bollinger_enabled = true →
        s.bb_below_basis = true ∧ s.bb_wide_enough = true) ∧
      (cfg.mtf_enabled = true → s.mtf_bearish = true) ∧
      (cfg.rsi_enabled = true → s.rsi_bear_zone = true) ∧
      (cfg.macd_enabled = true → s.macd_bearish = true) ∧
      (cfg.volatility_enabled = true → s.volatility_ok = true) ∧
      ¬(cfg.sr_enabled = true ∧ s.near_support = true) := by
  unfold check_short_setup
  split_ifs <;> simp_all

/-- `_check_long_trigger` is the disjunction of the six long trigger events. -/
lemma check_long_trigger_eq_true (cfg : EngineConfig) (s : IndicatorStatus) :
    check_long_trigger cfg s = true ↔
      s.ema_bullish_crossover = true ∨ s.bullish_engulfing = true ∨
      (s.hammer = true ∧ s.near_support = true) ∨
      s.rsi_bullish_divergence = true ∨ s.morning_doji_star = true ∨
      (cfg.detect_spike = true ∧ s.volume_spike = true) := by
  simp [check_long_trigger]

/-- `_check_short_trigger` is the disjunction of the six short trigger events. -/
lemma check_short_trigger_eq_true (cfg : EngineConfig) (s : IndicatorStatus) :
    check_short_trigger cfg s = true ↔
      s.ema_bearish_crossover = true ∨ s.bearish_engulfing = true ∨
      (s.shooting_star = true ∧ s.near_resistance = true) ∨
      s.rsi_bearish_divergence = true ∨ s.evening_doji_star = true ∨
      (cfg.detect_spike = true ∧ s.volume_spike = true) := by
  simp [check_short_trigger]

/-- The long setup demands `ema_fast_above_slow`; the short setup refuses it.
Hence they never hold together. -/
lemma long_setup_excludes_short (cfg : EngineConfig) (s : IndicatorStatus)
    (h : check_long_setup cfg s = true) : check_short_setup cfg s = false := by
  have hfa : s.ema_fast_above_slow = true :=
    ((check_long_setup_eq_true cfg s).mp h).1
  unfold check_short_setup
  simp [hfa]

/-! ## Claims about the strategy engine -/

/-- Claim C9: `_check_short_setup` is observationally equivalent to the same
function with its leading no-op conditional deleted: for every
`IndicatorStatus` and configuration both versions return the same boolean,
which is false whenever `ema_fast_above_slow` is true and otherwise equals
the conjunction of the remaining enabled bearish conditions. -/
theorem c9_short_setup_no_op_equiv (cfg : EngineConfig) (s : IndicatorStatus) :
    check_short_setup cfg s = check_short_setup_spec cfg s ∧
    (s.ema_fast_above_slow = true → check_short_setup cfg s = false) := by
  constructor
  · rw [Bool.eq_iff_iff, check_short_setup_eq_true]
    cases hfa : s.ema_fast_above_slow
    · simp only [check_short_setup_spec, hfa, Bool.false_eq_true, if_false,
        decide_eq_true_eq]
      tauto
    · simp [check_short_setup_spec, hfa]
  · intro h
    unfold check_short_setup
    simp [h]

/-- Claim C10: the long setup and the short setup can never hold together
(the long setup requires `ema_fast_above_slow`, which the short setup
refuses), so a single evaluation never produces both signals, and the
LONG-before-SHORT branch order in `evaluate` never masks a short signal:
whenever the gates pass and the short setup and a short trigger event hold,
`evaluate` does return SHORT. -/
theorem c10_setups_mutually_exclusive (cfg : EngineConfig)
    (s : IndicatorStatus) :
    (¬(check_long_setup cfg s = true ∧ check_short_setup cfg s = true)) ∧
    (∀ cooldown_ok indicators_ready : Bool,
      cooldown_ok = true → indicators_ready = true →
      is_no_trade_zone cfg s = false →
      check_short_setup cfg s = true → check_short_trigger cfg s = true →
      evaluate cfg cooldown_ok indicators_ready s = SignalType.SHORT) := by
  constructor
  · rintro ⟨hl, hs⟩
    exact absurd hs (by simp [long_setup_excludes_short cfg s hl])
  · intro cooldown_ok indicators_ready hc hr hntz hss hst
    have hls : check_long_setup cfg s = false := by
      by_contra h
      have hl : check_long_setup cfg s = true := by
        revert h; cases check_long_setup cfg s <;> simp
      have := long_setup_excludes_short cfg s hl
      rw [this] at hss
      exact Bool.false_ne_true hss
    unfold evaluate
    simp [hc, hr, hntz, hls, hss, hst]

/-- Claim C3: `evaluate` returns LONG (resp. SHORT) iff the cooldown,
readiness and no-trade-zone gates all pass, every enabled long-setup (resp.
short-setup) condition holds as a strict conjunction, and at least one of
the six discrete trigger events holds; in every other case it returns
NEUTRAL. -/
theorem c3_evaluate_signal_iff (cfg : EngineConfig)
    (cooldown_ok indicators_ready : Bool) (s : IndicatorStatus) :
    (evaluate cfg cooldown_ok indicators_ready s = SignalType.LONG ↔
      cooldown_ok = true ∧ indicators_ready = true ∧
      is_no_trade_zone cfg s = false ∧
      (s.ema_fast_above_slow = true ∧ s.ema_strong_bull_trend = true ∧
        (cfg.use_ema200_filter = true → s.ema_above_200 = true) ∧
        s.adx_strong = true ∧
        (cfg.supertrend_enabled = true → s.supertrend_bullish = true) ∧
        (cfg.bollinger_enabled = true →
          s.bb_above_basis = true ∧ s.bb_wide_enough = true) ∧
        (cfg.mtf_enabled = true → s.mtf_bullish = true) ∧
        (cfg.rsi_enabled = true → s.rsi_bull_zone = true) ∧
        (cfg.macd_enabled = true → s.macd_bullish = true) ∧
        (cfg.volatility_enabled = true → s.volatility_ok = true) ∧
        ¬(cfg.sr_enabled = true ∧ s.near_resistance = true)) ∧
      (s.ema_bullish_crossover = true ∨ s.bullish_engulfing = true ∨
        (s.hammer = true ∧ s.near_support = true) ∨
        s.rsi_bullish_divergence = true ∨ s.morning_doji_star = true ∨
        (cfg.detect_spike = true ∧ s.volume_spike = true))) ∧
    (evaluate cfg cooldown_ok indicators_ready s = SignalType.SHORT ↔
      cooldown_ok = true ∧ indicators_ready = true ∧
      is_no_trade_zone cfg s = false ∧
      (s.ema_fast_above_slow = false ∧ s.ema_strong_bear_trend = true ∧
        (cfg.use_ema200_filter = true → s.ema_below_200 = true) ∧
        s.adx_strong = true ∧
        (cfg.supertrend_enabled = true → s.supertrend_bearish = true) ∧
        (cfg.bollinger_enabled = true →
          s.bb_below_basis = true ∧ s.bb_wide_enough = true) ∧
        (cfg.mtf_enabled = true → s.mtf_bearish = true) ∧
        (cfg.rsi_enabled = true → s.rsi_bear_zone = true) ∧
        (cfg.macd_enabled = true → s.macd_bearish = true) ∧
        (cfg.volatility_enabled = true → s.volatility_ok = true) ∧
        ¬(cfg.sr_enabled = true ∧ s.near_support = true)) ∧
      (s.ema_bearish_crossover = true ∨ s.bearish_engulfing = true ∨
        (s.shooting_star = true ∧ s.near_resistance = true) ∨
        s.rsi_bearish_divergence = true ∨ s.evening_doji_star = true ∨
        (cfg.detect_spike = true ∧ s.volume_spike = true))) ∧
    (¬(check_long_setup cfg s = true ∧ check_long_trigger cfg s = true ∧
        cooldown_ok = true ∧ indicators_ready = true ∧
        is_no_trade_zone cfg s = false) →
      ¬(check_short_setup cfg s = true ∧ check_short_trigger cfg s = true ∧
        cooldown_ok = true ∧ indicators_ready = true ∧
        is_no_trade_zone cfg s = false) →
      evaluate cfg cooldown_ok indicators_ready s = SignalType.NEUTRAL) := by
  refine ⟨?_, ?_, ?_⟩
  · rw [← check_long_setup_eq_true, ← check_long_trigger_eq_true]
    unfold evaluate
    split_ifs with h1 h2 h3 h4 h5 <;> simp_all
  · rw [← check_short_setup_eq_true, ← check_short_trigger_eq_true]
    unfold evaluate
    split_ifs with h1 h2 h3 h4 h5 <;> simp_all
    intro hss
    have hl : check_long_setup cfg s = true := h4.1
    rw [long_setup_excludes_short cfg s hl] at hss
    exact absurd hss (by simp)
  · intro hnl hns
    unfold evaluate
    split_ifs with h1 h2 h3 h4 h5 <;> simp_all

/-! ## Claims about the Supertrend indicator, sizing tracker, news filter
and candlestick patterns -/

/-- Claim C4: after seeding, the Supertrend direction flips to bullish only
when the close is strictly above the previous supertrend value and to
bearish only when strictly below (holding on equality), and while the
direction stays bullish the supertrend value never decreases from one
update to the next (never increases while bearish). -/
theorem c4_supertrend_step_invariants (mult : ℚ) (prev : SupertrendState)
    (high low close atr_val : ℚ) :
    ((supertrend_step mult prev high low close atr_val).dir = 1 →
      prev.dir ≠ 1 → close > prev.st) ∧
    ((supertrend_step mult prev high low close atr_val).dir = -1 →
      prev.dir ≠ -1 → close < prev.st) ∧
    (close = prev.st →
      (supertrend_step mult prev high low close atr_val).dir = prev.dir) ∧
    (prev.dir = 1 → (supertrend_step mult prev high low close atr_val).dir = 1 →
      prev.st ≤ (supertrend_step mult prev high low close atr_val).st) ∧
    (prev.dir = -1 →
      (supertrend_step mult prev high low close atr_val).dir = -1 →
      (supertrend_step mult prev high low close atr_val).st ≤ prev.st) := by
  unfold supertrend_step
  refine ⟨?_, ?_, ?_, ?_, ?_⟩
  · split_ifs with h1 h2 <;> simp_all
  · split_ifs with h1 h2 <;> simp_all
  · intro heq
    split_ifs with h1 h2 <;> simp_all
  · intro hp hd
    split_ifs at hd ⊢ <;> simp_all
  · intro hp hd
    split_ifs at hd ⊢ <;> simp_all

/-- Witness for C4: a bullish-to-bullish update (previous supertrend 10,
bar 18–20 closing at 15, ATR 1, multiplier 3) keeps the value at least 10. -/
theorem c4_supertrend_step_invariants_witness :
    (supertrend_step 3 ⟨10, 1⟩ 20 18 15 1).dir = 1 ∧
    (10 : ℚ) ≤ (supertrend_step 3 ⟨10, 1⟩ 20 18 15 1).st :=
  ⟨by decide,
   (c4_supertrend_step_invariants 3 ⟨10, 1⟩ 20 18 15 1).2.2.2.1 rfl (by decide)⟩

/-- Claim C6: with adaptive sizing enabled and threshold T,
`get_sizing_multiplier` is 1 below T consecutive losses, 3/4 at exactly T,
and 1/2 from T+1 on; a win zeroes the loss streak (so, for a positive
threshold, the multiplier returns to 1) and a loss zeroes the win streak;
with adaptive sizing disabled the multiplier is always 1; and with T = 2 the
multiplier is 3/4 after two losses, 1/2 after three, and 1 after a win. -/
theorem c6_adaptive_sizing (cfg : SizingConfig) (s : RiskStats) :
    (cfg.use_adaptive_sizing = false → get_sizing_multiplier cfg s = 1) ∧
    (cfg.use_adaptive_sizing = true →
      (s.consecutive_losses < cfg.max_consecutive_losses →
        get_sizing_multiplier cfg s = 1) ∧
      (s.consecutive_losses = cfg.max_consecutive_losses →
        get_sizing_multiplier cfg s = 3/4) ∧
      (cfg.max_consecutive_losses + 1 ≤ s.consecutive_losses →
        get_sizing_multiplier cfg s = 1/2)) ∧
    (record_win s).consecutive_losses = 0 ∧
    (record_loss s).consecutive_wins = 0 ∧
    (cfg.use_adaptive_sizing = true → 0 < cfg.max_consecutive_losses →
      get_sizing_multiplier cfg (record_win s) = 1) ∧
    get_sizing_multiplier ⟨true, 2⟩
      (record_loss (record_loss ⟨0, 0, 0, 0, 0⟩)) = 3/4 ∧
    get_sizing_multiplier ⟨true, 2⟩
      (record_loss (record_loss (record_loss ⟨0, 0, 0, 0, 0⟩))) = 1/2 ∧
    get_sizing_multiplier ⟨true, 2⟩
      (record_win (record_loss (record_loss (record_loss ⟨0, 0, 0, 0, 0⟩)))) = 1 := by
  refine ⟨?_, ?_, rfl, rfl, ?_,
    by norm_num [get_sizing_multiplier, record_loss],
    by norm_num [get_sizing_multiplier, record_loss],
    by norm_num [get_sizing_multiplier, record_loss, record_win]⟩
  · intro h
    simp [get_sizing_multiplier, h]
  · intro h
    refine ⟨?_, ?_, ?_⟩ <;> intro hc <;>
      (unfold get_sizing_multiplier;
       split_ifs <;> first | (exfalso; omega) | simp_all)
  · intro ha hT
    have hcl : (record_win s).consecutive_losses = 0 := rfl
    unfold get_sizing_multiplier
    rw [hcl]
    split_ifs <;> first | (exfalso; omega) | simp_all

/-- Witness for C6: with threshold 2 and a three-loss streak, a recorded win
brings the multiplier back to 1. -/
theorem c6_adaptive_sizing_witness :
    get_sizing_multiplier ⟨true, 2⟩ (record_win ⟨0, 3, 3, 0, 3⟩) = 1 :=
  (c6_adaptive_sizing ⟨true, 2⟩ ⟨0, 3, 3, 0, 3⟩).2.2.2.2.1 rfl (by decide)

/-- Claim C7: `is_blackout(now)` is true iff the filter is enabled, the
event list is non-empty, and some event shares now's month and day with
now's minute-of-day inside the closed buffered window; and for the single
event (month 2, day 7, 13:30 UTC) with 30/30 buffers it is true at 13:30
and 13:00 on February 7 and false at 12:00. -/
theorem c7_news_blackout (f : NewsFilter) (now : DateTimeUTC) :
    (is_blackout f now = true ↔
      f.enabled = true ∧ f.events ≠ [] ∧
      ∃ e ∈ f.events, e.month = now.month ∧ e.day = now.day ∧
        (e.hour * 60 + e.minute : ℤ) - f.buffer_before ≤
          (now.hour * 60 + now.minute : ℤ) ∧
        (now.hour * 60 + now.minute : ℤ) ≤
          (e.hour * 60 + e.minute : ℤ) + f.buffer_after) ∧
    is_blackout ⟨true, 30, 30, [⟨2, 7, 13, 30⟩]⟩ ⟨2, 7, 13, 30⟩ = true ∧
    is_blackout ⟨true, 30, 30, [⟨2, 7, 13, 30⟩]⟩ ⟨2, 7, 13, 0⟩ = true ∧
    is_blackout ⟨true, 30, 30, [⟨2, 7, 13, 30⟩]⟩ ⟨2, 7, 12, 0⟩ = false := by
  refine ⟨?_, by decide, by decide, by decide⟩
  unfold is_blackout
  split_ifs with h
  · simp only [Bool.false_eq_true, false_iff]
    rintro ⟨he, hne, -⟩
    rcases h with h | h
    · exact h (by simp [he])
    · exact hne (List.isEmpty_iff.mp h)
  · push_neg at h
    have he : f.enabled = true := by
      rcases h with ⟨h1, -⟩
      revert h1
      cases f.enabled <;> simp
    have hne : f.events ≠ [] := by
      rcases h with ⟨-, h2⟩
      intro hnil
      exact h2 (by simp [hnil])
    simp [List.any_eq_true, event_window_hit, he, hne]

/-- Counterexample to claim C8 as stated: the bar open 6.5, high 10, low 0,
close 9.5 has nonzero range, is bullish, has body exactly 30% of the range
and lower wick at least 60% of it — yet `hammer` returns false, because the
source requires the body to be strictly below 30%. -/
theorem c8_hammer_boundary_counterexample :
    (10 : ℚ) - 0 ≠ 0 ∧ (19/2 : ℚ) > 13/2 ∧
    (19/2 : ℚ) - 13/2 ≤ ((10 : ℚ) - 0) * (3/10) ∧
    min (19/2 : ℚ) (13/2) - 0 ≥ ((10 : ℚ) - 0) * (6/10) ∧
    hammer (13/2) 10 0 (19/2) = false := by
  refine ⟨by norm_num, by norm_num, by norm_num, ?_, ?_⟩
  · rw [min_eq_right (by norm_num : (13/2 : ℚ) ≤ 19/2)]
    norm_num
  · norm_num [hammer]

/-- Claim C8 (amended: the body bound and the wick bound are strict — body
strictly less than 30% of the range, wick strictly more than 60%): for a bar
with nonzero range, `hammer` is true exactly when the bar is bullish with a
small body and a long lower wick, `shooting_star` is the bearish mirror with
a long upper wick, and zero-range bars never match either pattern. -/
theorem c8_hammer_shooting_star (o h l c : ℚ) :
    (h - l ≠ 0 →
      (hammer o h l c = true ↔
        c > o ∧ c - o < (h - l) * (3/10) ∧ min c o - l > (h - l) * (6/10)) ∧
      (shooting_star o h l c = true ↔
        c < o ∧ o - c < (h - l) * (3/10) ∧ h - max c o > (h - l) * (6/10))) ∧
    (h - l = 0 → hammer o h l c = false ∧ shooting_star o h l c = false) := by
  constructor
  · intro hr
    constructor
    · unfold hammer
      simp [hr]
    · unfold shooting_star
      simp [hr]
  · intro hr
    constructor
    · unfold hammer
      simp [hr]
    · unfold shooting_star
      simp [hr]

/-- Witness for C8: a bullish bar (open 7, close 7.2, range 10, lower wick 7)
satisfies the strict conditions and `hammer` accepts it. -/
theorem c8_hammer_shooting_star_witness : hammer 7 10 0 (36/5) = true :=
  ((c8_hammer_shooting_star 7 10 0 (36/5)).1 (by norm_num)).1.mpr
    (by norm_num)

/-! ## Helper lemmas: the position-management checks preserve the side and
ratchet the stop in the position's favor -/

lemma update_price_preserves (pos : ManagedPosition) (p : ℚ) :
    (update_price pos p).side = pos.side ∧
    (update_price pos p).stoploss = pos.stoploss := by
  cases hs : pos.side <;> simp [update_price, hs]

lemma check_tp1_preserves (pos : ManagedPosition) (ok : Bool) :
    (check_tp1 pos ok).1.side = pos.side ∧
    (check_tp1 pos ok).1.stoploss = pos.stoploss := by
  cases hs : pos.side <;> simp only [check_tp1, hs] <;>
    cases ok <;> split_ifs <;> simp_all

lemma check_tp2_preserves (pos : ManagedPosition) (ok : Bool) :
    (check_tp2 pos ok).1.side = pos.side ∧
    (check_tp2 pos ok).1.stoploss = pos.stoploss := by
  cases hs : pos.side <;> simp only [check_tp2, hs] <;>
    cases ok <;> split_ifs <;> simp_all

lemma check_breakeven_mono (t : ℚ) (pos : ManagedPosition) (atr : ℚ)
    (ok : Bool) :
    (check_breakeven t pos atr ok).1.side = pos.side ∧
    (pos.side = Side.LONG →
      pos.stoploss ≤ (check_breakeven t pos atr ok).1.stoploss) ∧
    (pos.side = Side.SHORT →
      (check_breakeven t pos atr ok).1.stoploss ≤ pos.stoploss) := by
  cases hs : pos.side <;> simp only [check_breakeven, hs] <;>
    cases ok <;> split_ifs <;> simp_all <;> linarith

lemma check_trailing_mono (t : ℚ) (pos : ManagedPosition) (atr : ℚ)
    (ok : Bool) :
    (check_trailing_stop t pos atr ok).1.side = pos.side ∧
    (pos.side = Side.LONG →
      pos.stoploss ≤ (check_trailing_stop t pos atr ok).1.stoploss) ∧
    (pos.side = Side.SHORT →
      (check_trailing_stop t pos atr ok).1.stoploss ≤ pos.stoploss) := by
  cases hs : pos.side <;> simp only [check_trailing_stop, hs] <;>
    cases ok <;> split_ifs <;> simp_all <;> linarith

lemma stage_tp1_preserves (cfg : PMConfig) (ok : Bool) (pos : ManagedPosition) :
    (stage_tp1 cfg ok pos).1.side = pos.side ∧
    (stage_tp1 cfg ok pos).1.stoploss = pos.stoploss := by
  unfold stage_tp1
  split_ifs
  · exact check_tp1_preserves pos ok
  · exact ⟨rfl, rfl⟩

lemma stage_tp2_preserves (cfg : PMConfig) (ok : Bool) (pos : ManagedPosition) :
    (stage_tp2 cfg ok pos).1.side = pos.side ∧
    (stage_tp2 cfg ok pos).1.stoploss = pos.stoploss := by
  unfold stage_tp2
  split_ifs
  · exact check_tp2_preserves pos ok
  · exact ⟨rfl, rfl⟩

lemma stage_breakeven_mono (cfg : PMConfig) (ok : Bool) (pos : ManagedPosition)
    (atr : ℚ) :
    (stage_breakeven cfg ok pos atr).1.side = pos.side ∧
    (pos.side = Side.LONG →
      pos.stoploss ≤ (stage_breakeven cfg ok pos atr).1.stoploss) ∧
    (pos.side = Side.SHORT →
      (stage_breakeven cfg ok pos atr).1.stoploss ≤ pos.stoploss) := by
  unfold stage_breakeven
  split_ifs
  · exact check_breakeven_mono cfg.breakeven_trigger_atr pos atr ok
  · exact ⟨rfl, fun _ => le_refl _, fun _ => le_refl _⟩

lemma stage_trailing_mono (cfg : PMConfig) (ok : Bool) (pos : ManagedPosition)
    (atr : ℚ) :
    (stage_trailing cfg ok pos atr).1.side = pos.side ∧
    (pos.side = Side.LONG →
      pos.stoploss ≤ (stage_trailing cfg ok pos atr).1.stoploss) ∧
    (pos.side = Side.SHORT →
      (stage_trailing cfg ok pos atr).1.stoploss ≤ pos.stoploss) := by
  unfold stage_trailing
  split_ifs
  · exact check_trailing_mono cfg.trailing_stop_atr pos atr ok
  · exact ⟨rfl, fun _ => le_refl _, fun _ => le_refl _⟩

lemma manage_position_some_mono (cfg : PMConfig) (status : IndicatorStatus)
    (pos : ManagedPosition) (er : ExecResults) (pos2 : ManagedPosition)
    (h : (manage_position cfg status pos er).1 = some pos2) :
    pos2.side = pos.side ∧
    (pos.side = Side.LONG → pos.stoploss ≤ pos2.stoploss) ∧
    (pos.side = Side.SHORT → pos2.stoploss ≤ pos.stoploss) := by
  unfold manage_position at h
  split_ifs at h with h1 h2
  · obtain rfl : pos = pos2 := by simpa using h
    exact ⟨rfl, fun _ => le_refl _, fun _ => le_refl _⟩
  · have hq : (stage_trailing cfg er.trailing_ok
        (stage_breakeven cfg er.breakeven_ok
          (stage_tp2 cfg er.tp2_ok (stage_tp1 cfg er.tp1_ok pos).1).1
          pos.atr_at_entry).1 pos.atr_at_entry).1 = pos2 := by
      simpa using h
    obtain ⟨e1s, e1l⟩ := stage_tp1_preserves cfg er.tp1_ok pos
    obtain ⟨e2s, e2l⟩ :=
      stage_tp2_preserves cfg er.tp2_ok (stage_tp1 cfg er.tp1_ok pos).1
    obtain ⟨e3s, e3lo, e3sh⟩ := stage_breakeven_mono cfg er.breakeven_ok
      (stage_tp2 cfg er.tp2_ok (stage_tp1 cfg er.tp1_ok pos).1).1
      pos.atr_at_entry
    obtain ⟨e4s, e4lo, e4sh⟩ := stage_trailing_mono cfg er.trailing_ok
      (stage_breakeven cfg er.breakeven_ok
        (stage_tp2 cfg er.tp2_ok (stage_tp1 cfg er.tp1_ok pos).1).1
        pos.atr_at_entry).1 pos.atr_at_entry
    rw [hq] at e4s e4lo e4sh
    refine ⟨by rw [e4s, e3s, e2s, e1s], ?_, ?_⟩
    · intro hL
      have h2L := e1s.trans hL
      have h3L := e2s.trans h2L
      calc pos.stoploss = _ := (e2l.trans e1l).symm
        _ ≤ _ := e3lo h3L
        _ ≤ pos2.stoploss := e4lo (e3s.trans h3L)
    · intro hS
      have h2S := e1s.trans hS
      have h3S := e2s.trans h2S
      calc pos2.stoploss ≤ _ := e4sh (e3s.trans h3S)
        _ ≤ _ := e3sh h3S
        _ = pos.stoploss := e2l.trans e1l

lemma run_steps_mono (cfg : PMConfig) (steps : List ManageStep) :
    ∀ pos pos2 : ManagedPosition, run_steps cfg steps pos = some pos2 →
      pos2.side = pos.side ∧
      (pos.side = Side.LONG → pos.stoploss ≤ pos2.stoploss) ∧
      (pos.side = Side.SHORT → pos2.stoploss ≤ pos.stoploss) := by
  induction steps with
  | nil =>
    intro pos pos2 h
    obtain rfl : pos = pos2 := by simpa [run_steps] using h
    exact ⟨rfl, fun _ => le_refl _, fun _ => le_refl _⟩
  | cons step rest ih =>
    intro pos pos2 h
    cases step with
    | price p =>
      simp only [run_steps] at h
      obtain ⟨us, ul⟩ := update_price_preserves pos p
      obtain ⟨rs, rl, rsh⟩ := ih (update_price pos p) pos2 h
      refine ⟨rs.trans us, ?_, ?_⟩
      · intro hL
        rw [← ul]
        exact rl (us.trans hL)
      · intro hS
        rw [← ul]
        exact rsh (us.trans hS)
    | tick status er =>
      simp only [run_steps] at h
      cases hm : (manage_position cfg status pos er).1 with
      | none => rw [hm] at h; simp at h
      | some pm =>
        rw [hm] at h
        obtain ⟨ms, ml, msh⟩ :=
          manage_position_some_mono cfg status pos er pm hm
        obtain ⟨rs, rl, rsh⟩ := ih pm pos2 h
        refine ⟨rs.trans ms, ?_, ?_⟩
        · intro hL
          exact le_trans (ml hL) (rl (ms.trans hL))
        · intro hS
          exact le_trans (rsh (ms.trans hS)) (msh hS)

lemma check_tp1_fail (pos : ManagedPosition) : (check_tp1 pos false).1 = pos := by
  cases hs : pos.side <;> simp only [check_tp1, hs] <;> split_ifs <;> simp_all

lemma check_tp2_fail (pos : ManagedPosition) : (check_tp2 pos false).1 = pos := by
  cases hs : pos.side <;> simp only [check_tp2, hs] <;> split_ifs <;> simp_all

lemma check_breakeven_fail (t : ℚ) (pos : ManagedPosition) (atr : ℚ) :
    (check_breakeven t pos atr false).1 = pos := by
  cases hs : pos.side <;> simp only [check_breakeven, hs] <;>
    split_ifs <;> simp_all

lemma check_trailing_fail (t : ℚ) (pos : ManagedPosition) (atr : ℚ) :
    (check_trailing_stop t pos atr false).1 = pos := by
  cases hs : pos.side <;> simp only [check_trailing_stop, hs] <;>
    split_ifs <;> simp_all

lemma stage_tp1_fail (cfg : PMConfig) (pos : ManagedPosition) :
    (stage_tp1 cfg false pos).1 = pos := by
  unfold stage_tp1
  split_ifs
  · exact check_tp1_fail pos
  · rfl

lemma stage_tp2_fail (cfg : PMConfig) (pos : ManagedPosition) :
    (stage_tp2 cfg false pos).1 = pos := by
  unfold stage_tp2
  split_ifs
  · exact check_tp2_fail pos
  · rfl

lemma stage_breakeven_fail (cfg : PMConfig) (pos : ManagedPosition) (atr : ℚ) :
    (stage_breakeven cfg false pos atr).1 = pos := by
  unfold stage_breakeven
  split_ifs
  · exact check_breakeven_fail cfg.breakeven_trigger_atr pos atr
  · rfl

lemma stage_trailing_fail (cfg : PMConfig) (pos : ManagedPosition) (atr : ℚ) :
    (stage_trailing cfg false pos atr).1 = pos := by
  unfold stage_trailing
  split_ifs
  · exact check_trailing_fail cfg.trailing_stop_atr pos atr
  · rfl

/-- An indicator snapshot with every flag false (no reversal event fires). -/
def status_quiet : IndicatorStatus :=
  ⟨false, false, false, false, false, false, false, false, false, false,
   false, false, false, false, false, false, false, false, false, false,
   false, false, false, false, false, false, false, false, false, false,
   false, false, false, false, false⟩

/-! ## Claims about the position risk state machine -/

/-- Claim C1: over every sequence of management ticks (and price updates),
the stored stop of a LONG position never decreases and that of a SHORT
position never increases; and `_check_trailing_stop` replaces the stop only
when the ATR-trail candidate is strictly more favorable than the current
stop and the executor's `set_stoploss` reply is success, in which case the
new stop is exactly the candidate. -/
theorem c1_trailing_stop_ratchet :
    (∀ (cfg : PMConfig) (steps : List ManageStep) (pos pos2 : ManagedPosition),
      run_steps cfg steps pos = some pos2 →
      (pos.side = Side.LONG → pos.stoploss ≤ pos2.stoploss) ∧
      (pos.side = Side.SHORT → pos2.stoploss ≤ pos.stoploss)) ∧
    (∀ (trail : ℚ) (pos : ManagedPosition) (atr : ℚ) (ok : Bool),
      (check_trailing_stop trail pos atr ok).1.stoploss ≠ pos.stoploss →
      ok = true ∧
      (pos.side = Side.LONG →
        pos.highest_price - atr * trail > pos.stoploss ∧
        (check_trailing_stop trail pos atr ok).1.stoploss =
          pos.highest_price - atr * trail) ∧
      (pos.side = Side.SHORT →
        pos.lowest_price + atr * trail < pos.stoploss ∧
        (check_trailing_stop trail pos atr ok).1.stoploss =
          pos.lowest_price + atr * trail)) := by
  constructor
  · intro cfg steps pos pos2 h
    obtain ⟨-, hl, hs⟩ := run_steps_mono cfg steps pos pos2 h
    exact ⟨hl, hs⟩
  · intro trail pos atr ok hne
    cases hs : pos.side <;> simp only [check_trailing_stop, hs] at hne ⊢ <;>
      cases ok <;> split_ifs at hne ⊢ <;> simp_all

/-- Witness for C1: a one-tick run on a LONG position keeps its stop at
least 90, and a successful trailing update with high-water-mark 100, ATR 2,
trail multiple 1 moves the stop to exactly 100 − 2·1. -/
theorem c1_trailing_stop_ratchet_witness :
    ((90 : ℚ) ≤ 90) ∧
    (check_trailing_stop 1
      ⟨Side.LONG, 95, 99, 90, 110, 0, 0, 2, false, false, false, 100, 95⟩
      2 true).1.stoploss = 100 - 2 * 1 := by
  constructor
  · exact (c1_trailing_stop_ratchet.1 ⟨false, false, false, 0, 0⟩
      [ManageStep.tick status_quiet ⟨false, false, false, false⟩]
      ⟨Side.LONG, 95, 99, 90, 110, 0, 0, 2, false, false, false, 100, 95⟩
      ⟨Side.LONG, 95, 99, 90, 110, 0, 0, 2, false, false, false, 100, 95⟩
      (by norm_num [run_steps, manage_position, stage_tp1, stage_tp2,
        stage_breakeven, stage_trailing, should_exit_long, status_quiet])).1
      rfl
  · exact ((c1_trailing_stop_ratchet.2 1
      ⟨Side.LONG, 95, 99, 90, 110, 0, 0, 2, false, false, false, 100, 95⟩
      2 true (by norm_num [check_trailing_stop])).2.1 rfl).2

/-- Claim C2: when an executor call fails (reply `false`), the corresponding
local position state is unchanged — no triggered flag is set, the stop keeps
its value — so the same check reruns identically next tick; a whole tick
whose executor replies are all failures, in which no reversal fires, leaves
the position exactly as it was. -/
theorem c2_failed_executor_keeps_state (cfg : PMConfig)
    (status : IndicatorStatus) (pos : ManagedPosition) (trigger trail atr : ℚ) :
    (check_tp1 pos false).1 = pos ∧
    (check_tp2 pos false).1 = pos ∧
    (check_breakeven trigger pos atr false).1 = pos ∧
    (check_trailing_stop trail pos atr false).1 = pos ∧
    (∀ ok : Bool, check_tp1 (check_tp1 pos false).1 ok = check_tp1 pos ok) ∧
    ((match pos.side with
      | Side.LONG => should_exit_long status
      | Side.SHORT => should_exit_short status) = false →
      (manage_position cfg status pos
        ⟨false, false, false, false⟩).1 = some pos) := by
  refine ⟨check_tp1_fail pos, check_tp2_fail pos,
    check_breakeven_fail trigger pos atr, check_trailing_fail trail pos atr,
    fun ok => by rw [check_tp1_fail pos], ?_⟩
  intro hex
  unfold manage_position
  split_ifs with h1 h2
  · rfl
  · rw [hex] at h2
    exact absurd h2 Bool.false_ne_true
  · simp [stage_tp1_fail, stage_tp2_fail, stage_breakeven_fail,
      stage_trailing_fail]

/-- Witness for C2: a full tick with all executor replies failing leaves a
concrete LONG position unchanged. -/
theorem c2_failed_executor_keeps_state_witness :
    (manage_position ⟨true, true, true, 3/2, 6/5⟩ status_quiet
      ⟨Side.LONG, 95, 99, 90, 110, 0, 0, 2, false, false, false, 100, 95⟩
      ⟨false, false, false, false⟩).1 =
    some ⟨Side.LONG, 95, 99, 90, 110, 0, 0, 2, false, false, false, 100, 95⟩ :=
  (c2_failed_executor_keeps_state ⟨true, true, true, 3/2, 6/5⟩ status_quiet
    ⟨Side.LONG, 95, 99, 90, 110, 0, 0, 2, false, false, false, 100, 95⟩
    0 0 0).2.2.2.2.2 rfl

/-- Claim C5: on a tick for a registered position (positive entry ATR), if
the engine reports a reversal for the position's side — `should_exit_long`
(resp. `should_exit_short`) being exactly the disjunction of the opposite
EMA crossover, opposite engulfing, opposite wick pattern near the opposite
S/R level, or opposing Supertrend direction — then the executor is told to
close the full position, the position is unregistered (`none`), and no
other check issues a call that tick. -/
theorem c5_reversal_exit_terminal (cfg : PMConfig) (status : IndicatorStatus)
    (pos : ManagedPosition) (er : ExecResults)
    (hatr : 0 < pos.atr_at_entry) :
    (pos.side = Side.LONG → should_exit_long status = true →
      manage_position cfg status pos er = (none, [ExecCall.close_position])) ∧
    (pos.side = Side.SHORT → should_exit_short status = true →
      manage_position cfg status pos er = (none, [ExecCall.close_position])) ∧
    (should_exit_long status = true ↔
      (status.ema_bearish_crossover = true ∨ status.bearish_engulfing = true ∨
        (status.shooting_star = true ∧ status.near_resistance = true) ∨
        status.supertrend_bearish = true)) ∧
    (should_exit_short status = true ↔
      (status.ema_bullish_crossover = true ∨ status.bullish_engulfing = true ∨
        (status.hammer = true ∧ status.near_support = true) ∨
        status.supertrend_bullish = true)) := by
  refine ⟨?_, ?_, by simp [should_exit_long], by simp [should_exit_short]⟩
  · intro hs he
    unfold manage_position
    rw [if_neg (not_le.mpr hatr)]
    rw [if_pos]
    rw [hs, he]
  · intro hs he
    unfold manage_position
    rw [if_neg (not_le.mpr hatr)]
    rw [if_pos]
    rw [hs, he]

/-- Witness for C5: a bearish EMA crossover closes a concrete LONG position
in full and unregisters it, with no other executor call that tick. -/
theorem c5_reversal_exit_terminal_witness :
    manage_position ⟨true, true, true, 3/2, 6/5⟩
      { status_quiet with ema_bearish_crossover := true }
      ⟨Side.LONG, 95, 99, 90, 110, 0, 0, 2, false, false, false, 100, 95⟩
      ⟨true, true, true, true⟩ = (none, [ExecCall.close_position]) :=
  (c5_reversal_exit_terminal ⟨true, true, true, 3/2, 6/5⟩
    { status_quiet with ema_bearish_crossover := true }
    ⟨Side.LONG, 95, 99, 90, 110, 0, 0, 2, false, false, false, 100, 95⟩
    ⟨true, true, true, true⟩ (by norm_num)).1 rfl rfl

/-- A configuration with every optional filter disabled, used as a concrete
evaluation point. -/
def cfg_all_off : EngineConfig :=
  ⟨false, false, false, false, false, false, false, false, false, false,
   false⟩

/-- Witness for C3: with all filters off and a fully quiet snapshot, both
branches fail and `evaluate` returns NEUTRAL. -/
theorem c3_evaluate_signal_iff_witness :
    evaluate cfg_all_off true true status_quiet = SignalType.NEUTRAL :=
  (c3_evaluate_signal_iff cfg_all_off true true status_quiet).2.2
    (by decide) (by decide)

/-- Witness for C9: with `ema_fast_above_slow` set, the short setup returns
false. -/
theorem c9_short_setup_no_op_equiv_witness :
    check_short_setup cfg_all_off
      { status_quiet with ema_fast_above_slow := true } = false :=
  (c9_short_setup_no_op_equiv cfg_all_off
    { status_quiet with ema_fast_above_slow := true }).2 rfl

/-- Witness for C10: a bearish snapshot with the gates passing makes
`evaluate` return SHORT — the LONG branch does not mask it. -/
theorem c10_setups_mutually_exclusive_witness :
    evaluate cfg_all_off true true
      { status_quiet with
          ema_strong_bear_trend := true, adx_strong := true,
          ema_bearish_crossover := true } = SignalType.SHORT :=
  (c10_setups_mutually_exclusive cfg_all_off
    { status_quiet with
        ema_strong_bear_trend := true, adx_strong := true,
        ema_bearish_crossover := true }).2 true true rfl rfl
    (by decide) (by decide) (by decide)

end UTS
